import Mathlib

/-!
Verification development for the automatic port scanner: a shallow embedding
of the scan pipeline (scanner, storage backends, banner analysis,
notification fan-out, message formatting) together with theorems settling
the specification claims about it.

Conventions of the embedding:
* machine time stamps are abstract clock ticks (Nat);
* external effects (the masscan subprocess, socket probes, channel sends,
  the database file) enter as explicit outcome parameters, mirroring the
  exception paths of the source;
* fallible operations return Except values.
-/

-- ======================== models.py ========================

/-- models.ScanStatus enumeration. -/
inductive ScanStatus
  | pending
  | running
  | completed
  | failed
deriving DecidableEq, Repr

/-- The .value string of the Python enum member. -/
def ScanStatus.value : ScanStatus → String
  | ScanStatus.pending => "pending"
  | ScanStatus.running => "running"
  | ScanStatus.completed => "completed"
  | ScanStatus.failed => "failed"

/-- models.ScanResult: one observed open port. -/
structure ScanResult where
  ip : String
  port : Nat
  service : Option String := none
  banner : Option String := none
  is_new : Bool := true
  timestamp : Nat := 0
  scan_id : Option String := none
deriving DecidableEq, Repr

/-- models.ScanSession: one execution of the pipeline. -/
structure ScanSession where
  id : String
  status : ScanStatus := ScanStatus.pending
  start_time : Nat := 0
  end_time : Option Nat := none
  targets : List String := []
  results : List ScanResult := []
  total_results : Nat := 0
  new_results : Nat := 0
  errors : List String := []
deriving DecidableEq, Repr

-- ======================== banner_analyzer.py ========================

namespace BannerAnalyzer

/-- Whitespace characters removed by Python str.strip(). -/
def pyWS (c : Char) : Bool :=
  c = ' ' || c = '\t' || c = '\n' || c = '\r' || c = '\x0b' || c = '\x0c'

/-- Python str.strip(): drop leading and trailing whitespace. -/
def pyStrip (s : String) : String :=
  String.mk (((s.toList.dropWhile pyWS).reverse.dropWhile pyWS).reverse)

/-- Case-insensitive prefix test against a lowercase stem
(re.IGNORECASE literal matching). -/
def prefixCI (stem : List Char) (s : List Char) : Bool :=
  (s.take stem.length).map Char.toLower == stem

/-- The character class [_\-] used as a separator in several patterns. -/
def sepChar (c : Char) : Bool := c = '_' || c = '-'

/-- Characters of the version class [\d\.]. -/
def numDotChar (c : Char) : Bool := c.isDigit || c = '.'

/-- Characters of the version class [\d\.p] under re.IGNORECASE. -/
def numDotPChar (c : Char) : Bool := c.isDigit || c = '.' || c.toLower = 'p'

/-- Consume an optional single separator [_\-]? (greedy, as re does). -/
def dropOptSep (s : List Char) : List Char :=
  match s with
  | [] => []
  | c :: cs => if sepChar c then cs else c :: cs

/-- Greedy capture of a nonempty version run ([...]+)?; none when the
optional group captures nothing. -/
def spanVer (p : Char → Bool) (s : List Char) : Option (List Char) :=
  let v := s.takeWhile p
  if v.isEmpty then none else some v

/-- Greedy parse of \d+\.\d+ (two dotted numeric components). -/
def parseTwo (s : List Char) : Option (List Char) :=
  let d1 := s.takeWhile Char.isDigit
  let r1 := s.drop d1.length
  if d1.isEmpty then none else
  match r1 with
  | '.' :: r2 =>
    let d2 := r2.takeWhile Char.isDigit
    if d2.isEmpty then none else some (d1 ++ '.' :: d2)
  | _ => none

/-- Greedy parse of \d+\.\d+\.\d+ (three dotted numeric components). -/
def parseThree (s : List Char) : Option (List Char) :=
  let d1 := s.takeWhile Char.isDigit
  let r1 := s.drop d1.length
  if d1.isEmpty then none else
  match r1 with
  | '.' :: r2 =>
    let d2 := r2.takeWhile Char.isDigit
    let r3 := r2.drop d2.length
    if d2.isEmpty then none else
    match r3 with
    | '.' :: r4 =>
      let d3 := r4.takeWhile Char.isDigit
      if d3.isEmpty then none else some (d1 ++ '.' :: (d2 ++ '.' :: d3))
    | _ => none
  | _ => none

/-- Anchored match of a plain literal pattern with no capture group. -/
def matchLit (stem : List Char) (s : List Char) : Option (Option (List Char)) :=
  if prefixCI stem s then some none else none

/-- Anchored match of stem[_\-]?([ver]+)? patterns
(OpenSSH, PostgreSQL, Redis, Tomcat). -/
def matchStemOptVer (stem : List Char) (verChar : Char → Bool) (s : List Char) :
    Option (Option (List Char)) :=
  if prefixCI stem s then
    some (spanVer verChar (dropOptSep (s.drop stem.length)))
  else none

/-- Anchored match of stem(?:/(\d+\.\d+\.\d+))? patterns (Apache, nginx). -/
def matchStemSlashV3 (stem : List Char) (s : List Char) : Option (Option (List Char)) :=
  if prefixCI stem s then
    some (match s.drop stem.length with
      | '/' :: cs => parseThree cs
      | _ => none)
  else none

/-- Anchored match of Microsoft-IIS/(\d+\.\d+): the capture is mandatory,
so a position where the version does not parse is not a match. -/
def matchIIS (s : List Char) : Option (Option (List Char)) :=
  if prefixCI "microsoft-iis/".toList s then
    (parseTwo (s.drop 14)).map some
  else none

/-- Anchored match of a[_\-]b patterns with no capture group
(FTP_Server, Telnet_Server, Apache_HTTP). -/
def matchSepLit (a b : List Char) (s : List Char) : Option (Option (List Char)) :=
  if prefixCI a s then
    match s.drop a.length with
    | [] => none
    | c :: cs => if sepChar c && prefixCI b cs then some none else none
  else none

/-- Anchored match of MySQL[_\-]Server[_\-]?([\d\.]+)?. -/
def matchMySQLServer (s : List Char) : Option (Option (List Char)) :=
  if prefixCI "mysql".toList s then
    match s.drop 5 with
    | [] => none
    | c :: cs =>
      if sepChar c && prefixCI "server".toList cs then
        some (spanVer numDotChar (dropOptSep (cs.drop 6)))
      else none
  else none

/-- re.search: try every start position left to right; the leftmost
anchored match wins. -/
def searchPat (m : List Char → Option (Option (List Char))) :
    List Char → Option (Option (List Char))
  | [] => m []
  | c :: rest =>
    match m (c :: rest) with
    | some v => some v
    | none => searchPat m rest

/-- One entry of the BannerAnalyzer.PATTERNS table: the anchored matcher of
the regex key together with the (service name, service type) value. -/
structure PatEntry where
  m : List Char → Option (Option (List Char))
  service_name : String
  service_type : String

/-- BannerAnalyzer.PATTERNS in exact declaration order. -/
def PATTERNS : List PatEntry :=
  [ ⟨matchStemSlashV3 "apache".toList, "Apache", "web_server"⟩,
    ⟨matchStemSlashV3 "nginx".toList, "Nginx", "web_server"⟩,
    ⟨matchIIS, "IIS", "web_server"⟩,
    ⟨matchStemOptVer "openssh".toList numDotPChar, "OpenSSH", "ssh"⟩,
    ⟨matchLit "openssl".toList, "OpenSSL", "crypto"⟩,
    ⟨matchMySQLServer, "MySQL", "database"⟩,
    ⟨matchStemOptVer "postgresql".toList numDotChar, "PostgreSQL", "database"⟩,
    ⟨matchLit "mongodb".toList, "MongoDB", "database"⟩,
    ⟨matchStemOptVer "redis".toList numDotChar, "Redis", "cache"⟩,
    ⟨matchLit "elasticsearch".toList, "Elasticsearch", "search"⟩,
    ⟨matchLit "docker".toList, "Docker", "container"⟩,
    ⟨matchSepLit "ftp".toList "server".toList, "FTP Server", "ftp"⟩,
    ⟨matchSepLit "telnet".toList "server".toList, "Telnet", "telnet"⟩,
    ⟨matchLit "smtp".toList, "SMTP", "mail"⟩,
    ⟨matchLit "pop3".toList, "POP3", "mail"⟩,
    ⟨matchLit "imap".toList, "IMAP", "mail"⟩,
    ⟨matchLit "jenkins".toList, "Jenkins", "ci_cd"⟩,
    ⟨matchStemOptVer "tomcat".toList numDotChar, "Tomcat", "web_server"⟩,
    ⟨matchLit "joomla".toList, "Joomla", "cms"⟩,
    ⟨matchLit "wordpress".toList, "WordPress", "cms"⟩,
    ⟨matchLit "drupal".toList, "Drupal", "cms"⟩,
    ⟨matchLit "nextcloud".toList, "Nextcloud", "file_sync"⟩,
    ⟨matchLit "owncloud".toList, "OwnCloud", "file_sync"⟩,
    ⟨matchLit "grafana".toList, "Grafana", "monitoring"⟩,
    ⟨matchLit "prometheus".toList, "Prometheus", "monitoring"⟩,
    ⟨matchLit "consul".toList, "Consul", "service_discovery"⟩,
    ⟨matchLit "etcd".toList, "etcd", "key_value"⟩,
    ⟨matchLit "rabbitmq".toList, "RabbitMQ", "message_queue"⟩,
    ⟨matchLit "kafka".toList, "Kafka", "message_queue"⟩,
    ⟨matchLit "cassandra".toList, "Cassandra", "database"⟩,
    ⟨matchLit "couchdb".toList, "CouchDB", "database"⟩,
    ⟨matchLit "influxdb".toList, "InfluxDB", "database"⟩,
    ⟨matchLit "solr".toList, "Solr", "search"⟩,
    ⟨matchLit "zookeeper".toList, "Zookeeper", "orchestration"⟩,
    ⟨matchLit "memcached".toList, "Memcached", "cache"⟩,
    ⟨matchLit "haproxy".toList, "HAProxy", "load_balancer"⟩,
    ⟨matchLit "nginx".toList, "Nginx", "reverse_proxy"⟩,
    ⟨matchSepLit "apache".toList "http".toList, "Apache", "web_server"⟩,
    ⟨matchLit "jetty".toList, "Jetty", "web_server"⟩,
    ⟨matchLit "kestrel".toList, "Kestrel", "web_server"⟩,
    ⟨matchLit "caddy".toList, "Caddy", "web_server"⟩,
    ⟨matchLit "hyper".toList, "Hyper", "web_server"⟩ ]

/-- The value returned for a matching entry: the service name, with the
captured version appended when group(1) captured something. -/
def renderMatch (name : String) (v : Option (List Char)) : String :=
  match v with
  | some ver => name ++ " " ++ String.mk ver
  | none => name

/-- Result of trying one table entry against the normalized banner. -/
def tryEntry (e : PatEntry) (s : List Char) : Option String :=
  (searchPat e.m s).map (renderMatch e.service_name)

/-- The for-loop over PATTERNS.items(): the first match returns immediately. -/
def firstPatternResult : List PatEntry → List Char → Option String
  | [], _ => none
  | e :: es, s =>
    match tryEntry e s with
    | some r => some r
    | none => firstPatternResult es s

/-- banner_normalized.split of a newline, first element: the characters
before the first newline. -/
def firstLineOf (s : String) : List Char :=
  s.toList.takeWhile (fun c => c != '\n')

/-- BannerAnalyzer.analyze. -/
def analyze (banner : String) : String :=
  if banner = "" then "Unknown"
  else
    let bn := pyStrip banner
    match firstPatternResult PATTERNS bn.toList with
    | some r => r
    | none =>
      let first_line := firstLineOf bn
      if first_line.isEmpty then "Unknown" else String.mk (first_line.take 50)

end BannerAnalyzer

-- ======================== scanner.py ========================

namespace MasscanScanner

/-- The errors _run_masscan can raise: the propagated asyncio wait_for
timeout, or the RuntimeError built from a nonzero exit (its message is the
full "Masscan failed: ..." text). -/
inductive MasscanErr
  | timesOut
  | failed (msg : String)
deriving DecidableEq, Repr

/-- str(e) as appended to session.errors: str of a bare TimeoutError is
the empty string; the RuntimeError carries its message. -/
def MasscanErr.message : MasscanErr → String
  | MasscanErr.timesOut => ""
  | MasscanErr.failed m => m

/-- Outcome of awaiting the external masscan process: either the wall-clock
timeout expires, or the process finishes with an exit code and stderr. -/
inductive ProcOutcome
  | timesOut
  | finished (returncode : Int) (stderrText : Option String)
deriving DecidableEq, Repr

/-- Observable side effects of one _run_masscan call. -/
structure RunEffects where
  killedProcess : Bool
  removedTempFile : Bool
deriving DecidableEq, Repr

/-- MasscanScanner._run_masscan. `parsed` is the value
_parse_masscan_output would return from the temporary output file; it is
only consulted on the zero-exit path. The source contains no process.kill
or terminate call on any path, so killedProcess is false on every path;
the finally block removes the temporary file on every path. -/
def run_masscan (outcome : ProcOutcome) (parsed : List ScanResult) :
    Except MasscanErr (List ScanResult) × RunEffects :=
  match outcome with
  | ProcOutcome.timesOut =>
    (Except.error MasscanErr.timesOut,
     { killedProcess := false, removedTempFile := true })
  | ProcOutcome.finished rc stderrText =>
    if rc != 0 then
      (Except.error (MasscanErr.failed ("Masscan failed: " ++ stderrText.getD "Unknown error")),
       { killedProcess := false, removedTempFile := true })
    else
      (Except.ok parsed, { killedProcess := false, removedTempFile := true })

/-- Outcome of one banner probe (MasscanScanner._get_banner_for_port).
Constructors mirror the exception sites of the source: failures of
open_connection (timeout, refusal, other OSError), of the probe write, of
the bounded read (timeout or other error), or a completed read whose
raw bytes are `raw` after permissive utf-8 decoding — in which case a
subsequent close/wait_closed failure is caught and ignored
(closeFails does not influence the returned result). -/
inductive ProbeOutcome
  | connectTimeout
  | connectRefused
  | connectError
  | writeError
  | readTimeout
  | readError
  | success (raw : String) (closeFails : Bool)
deriving DecidableEq, Repr

/-- MasscanScanner._get_banner_for_port: on a completed read the banner is
the decoded text truncated to 200 characters and the service is
re-classified from it; every failure path returns the result as it was,
and the result is always returned. -/
def get_banner_for_port (outcome : ProbeOutcome) (result : ScanResult) : ScanResult :=
  match outcome with
  | ProbeOutcome.success raw _ =>
    let banner := String.mk (raw.toList.take 200)
    { result with banner := some banner,
                  service := some (BannerAnalyzer.analyze banner) }
  | _ => result

/-- MasscanScanner._get_banners_async: one probe task per result, gathered
in order with return_exceptions=True. Every task returns its (truthy,
non-exception) ScanResult, so the final comprehension keeps all of them.
`outcomes` lists each probe task's outcome, positionally. -/
def get_banners_async (outcomes : List ProbeOutcome) (results : List ScanResult) :
    List ScanResult :=
  (results.zip outcomes).map (fun rp => get_banner_for_port rp.2 rp.1)

/-- MasscanScanner.scan_async. `bulk` is the outcome of the awaited
_run_masscan call, `probeBatch` the enrichment performed by
_get_banners_async, `now` the clock tick of datetime.now() at the terminal
transition. The returned Bool records whether the banner probing step was
executed. -/
def scan_async (sess_id : String) (targets : List String) (start : Nat) (now : Nat)
    (get_banners : Bool) (bulk : Except MasscanErr (List ScanResult))
    (probeBatch : List ScanResult → List ScanResult) : ScanSession × Bool :=
  let session : ScanSession :=
    { id := sess_id, targets := targets, status := ScanStatus.running,
      start_time := start }
  match bulk with
  | Except.ok results =>
    let step := if get_banners && !results.isEmpty
      then (probeBatch results, true) else (results, false)
    ({ session with results := step.1, total_results := step.1.length,
                    status := ScanStatus.completed, end_time := some now },
     step.2)
  | Except.error e =>
    ({ session with status := ScanStatus.failed,
                    errors := session.errors ++ [e.message],
                    end_time := some now },
     false)

end MasscanScanner

-- ======================== storage.py ========================

/-- A row of the SQLite scan_results table. -/
structure ResultRow where
  id : String
  scan_id : String
  ip : String
  port : Nat
  service : Option String
  banner : Option String
  is_new : Bool
  timestamp : Nat
deriving DecidableEq, Repr

/-- A row of the SQLite scan_sessions table. -/
structure SessionRow where
  id : String
  status : String
  start_time : Nat
  end_time : Option Nat
  targets : List String
  total_results : Nat
  new_results : Nat
  errors : List String
deriving DecidableEq, Repr

/-- The SQLite database state: its two tables. -/
structure SQLiteDB where
  scan_sessions : List SessionRow := []
  scan_results : List ResultRow := []
deriving DecidableEq, Repr

/-- The statistics dictionary returned by get_statistics. -/
structure Stats where
  total_results : Nat
  unique_hosts : Nat
  total_scans : Nat
  popular_ports : List (Nat × Nat)
deriving DecidableEq, Repr

/-- Distinct elements in first-occurrence order (the key order of a Python
dict built by iteration, and the distinct values of COUNT(DISTINCT ...)). -/
def distinctFirst {α : Type} [DecidableEq α] : List α → List α
  | [] => []
  | p :: ps => p :: (distinctFirst ps).filter (fun q => q ≠ p)

/-- Stable insertion keeping earlier elements first among equal counts:
the element is placed after every element with a count ≥ its own. -/
def insertByCountDesc (x : Nat × Nat) : List (Nat × Nat) → List (Nat × Nat)
  | [] => [x]
  | y :: ys => if x.2 ≤ y.2 then y :: insertByCountDesc x ys else x :: y :: ys

/-- Stable sort by count, descending (Python sorted(key=count, reverse=True);
for SQLite, ORDER BY count DESC with an unspecified tie order, modelled
here by the same stable order). -/
def sortByCountDesc (l : List (Nat × Nat)) : List (Nat × Nat) :=
  l.foldl (fun acc x => insertByCountDesc x acc) []

/-- The top-10 port frequency table of get_statistics. -/
def popularPorts (ports : List Nat) : List (Nat × Nat) :=
  let counts := (distinctFirst ports).map (fun p => (p, ports.count p))
  (sortByCountDesc counts).take 10

namespace SQLiteStorage

/-- The session-summary row written by save_scan_session. -/
def sessionRowOf (session : ScanSession) : SessionRow :=
  { id := session.id, status := session.status.value,
    start_time := session.start_time, end_time := session.end_time,
    targets := session.targets, total_results := session.total_results,
    new_results := session.new_results, errors := session.errors }

/-- INSERT OR REPLACE INTO scan_sessions keyed on the id primary key. -/
def upsertSession (rows : List SessionRow) (row : SessionRow) : List SessionRow :=
  (rows.filter (fun r => r.id ≠ row.id)) ++ [row]

/-- The UNIQUE(ip, port) constraint predicate of the scan_results table. -/
def conflictIpPort (rows : List ResultRow) (ip : String) (port : Nat) : Bool :=
  rows.any (fun w => w.ip == ip && w.port == port)

/-- One INSERT INTO scan_results attempt: on a uniqueness conflict the
sqlite3.IntegrityError handler keeps the table unchanged and sets the
in-memory result's is_new to False; otherwise the row is inserted. `rid`
stands for the fresh uuid4 row id. -/
def insertResult (rows : List ResultRow) (sid : String) (rid : String)
    (r : ScanResult) : List ResultRow × ScanResult :=
  if conflictIpPort rows r.ip r.port then
    (rows, { r with is_new := false })
  else
    (rows ++ [{ id := rid, scan_id := sid, ip := r.ip, port := r.port,
                service := r.service, banner := r.banner, is_new := r.is_new,
                timestamp := r.timestamp }], r)

/-- SQLiteStorage.save_scan_session on the non-failing path: upsert the
session row, then attempt each result insert in order, collecting the
(possibly mutated) in-memory results; commit returns True. -/
def save_scan_session (db : SQLiteDB) (session : ScanSession) :
    SQLiteDB × ScanSession × Bool :=
  let sessRows := upsertSession db.scan_sessions (sessionRowOf session)
  let step := fun (acc : List ResultRow × List ScanResult × Nat) (r : ScanResult) =>
    let inserted := insertResult acc.1 session.id
      (session.id ++ "/" ++ toString acc.2.2) r
    (inserted.1, acc.2.1 ++ [inserted.2], acc.2.2 + 1)
  let final := session.results.foldl step (db.scan_results, [], 0)
  ({ scan_sessions := sessRows, scan_results := final.1 },
   { session with results := final.2.1 }, true)

/-- SQLiteStorage.check_is_new_result: the SELECT COUNT query over the
connection either raises (modelled by Except.error, the handler returns
True) or yields the table, where the count of (ip, port) matches is
compared with zero. -/
def check_is_new_result (db : Except Unit SQLiteDB) (result : ScanResult) : Bool :=
  match db with
  | Except.ok d =>
    (d.scan_results.filter
      (fun w => w.ip == result.ip && w.port == result.port)).length == 0
  | Except.error _ => true

/-- SQLiteStorage.get_statistics. -/
def get_statistics (db : SQLiteDB) : Stats :=
  { total_results := db.scan_results.length,
    unique_hosts := (distinctFirst (db.scan_results.map (fun r => r.ip))).length,
    total_scans := (db.scan_sessions.filter (fun s => s.status == "completed")).length,
    popular_ports := popularPorts (db.scan_results.map (fun r => r.port)) }

end SQLiteStorage

/-- A result entry of the JSON document. -/
structure JResultRow where
  ip : String
  port : Nat
  service : Option String
  banner : Option String
  is_new : Bool
  timestamp : Nat
  scan_id : String
deriving DecidableEq, Repr

/-- A session entry of the JSON document. -/
structure JSessionRow where
  id : String
  status : String
  start_time : Nat
  end_time : Option Nat
  targets : List String
  total_results : Nat
  new_results : Nat
deriving DecidableEq, Repr

/-- The single structured document of the JSON backend. -/
structure JSONData where
  sessions : List JSessionRow := []
  results : List JResultRow := []
deriving DecidableEq, Repr

namespace JSONStorage

/-- JSONStorage._load_data: a read failure is caught and an empty document
is returned. -/
def load_data (file : Except Unit JSONData) : JSONData :=
  match file with
  | Except.ok d => d
  | Except.error _ => { sessions := [], results := [] }

/-- JSONStorage.save_scan_session: replace the session entry, then append
each result entry unless an (ip, port) duplicate already exists — the
in-memory results are left untouched. _save_data success returns True. -/
def save_scan_session (data : JSONData) (session : ScanSession) :
    JSONData × ScanSession × Bool :=
  let session_dict : JSessionRow :=
    { id := session.id, status := session.status.value,
      start_time := session.start_time, end_time := session.end_time,
      targets := session.targets, total_results := session.total_results,
      new_results := session.new_results }
  let sessions2 := (data.sessions.filter (fun s => s.id ≠ session.id)) ++ [session_dict]
  let step := fun (results : List JResultRow) (r : ScanResult) =>
    let result_dict : JResultRow :=
      { ip := r.ip, port := r.port, service := r.service, banner := r.banner,
        is_new := r.is_new, timestamp := r.timestamp, scan_id := session.id }
    if results.any (fun w => w.ip == r.ip && w.port == r.port) then results
    else results ++ [result_dict]
  let results2 := session.results.foldl step data.results
  ({ sessions := sessions2, results := results2 }, session, true)

/-- JSONStorage.check_is_new_result: scans the loaded document (empty on a
read error) for an (ip, port) match. -/
def check_is_new_result (file : Except Unit JSONData) (result : ScanResult) : Bool :=
  let data := load_data file
  !(data.results.any (fun w => w.ip == result.ip && w.port == result.port))

/-- JSONStorage.get_statistics: note that total_scans is the number of ALL
stored sessions, with no status filter. -/
def get_statistics (data : JSONData) : Stats :=
  { total_results := data.results.length,
    unique_hosts := (distinctFirst (data.results.map (fun r => r.ip))).length,
    total_scans := data.sessions.length,
    popular_ports := popularPorts (data.results.map (fun r => r.port)) }

end JSONStorage

-- ======================== notify.py ========================

namespace Notify

/-- A configured channel sender; only its enabled flag matters to the
manager logic. -/
structure Notifier where
  enabled : Bool
deriving DecidableEq, Repr

/-- Outcome of one channel's send coroutine as captured by gather with
return_exceptions=True: a normally returned success flag, or a raised
exception captured as a value. -/
inductive SendOutcome
  | ok (success : Bool)
  | exn
deriving DecidableEq, Repr

/-- TelegramNotifier._enabled = bool(token and chat_id). -/
def telegramEnabled (token chat_id : String) : Bool :=
  token ≠ "" && chat_id ≠ ""

/-- EmailNotifier._enabled = all([server, port, email, password, recipient])
(a zero port is falsy in Python). -/
def emailEnabled (smtp_server : String) (smtp_port : Nat)
    (sender_email sender_password recipient : String) : Bool :=
  smtp_server ≠ "" && smtp_port ≠ 0 && sender_email ≠ "" &&
    sender_password ≠ "" && recipient ≠ ""

/-- DiscordNotifier._enabled = bool(webhook_url). -/
def discordEnabled (webhook_url : String) : Bool :=
  webhook_url ≠ ""

/-- NotificationManager.add_notifier: appended only when enabled. -/
def add_notifier (notifiers : List Notifier) (n : Notifier) : List Notifier :=
  if n.enabled then notifiers ++ [n] else notifiers

/-- NotificationManager.notify_all: with no notifiers return 0 early;
otherwise gather every send (argument `sendResults`, positionally one
outcome per notifier) and count the results that are True. -/
def notify_all (sendResults : List SendOutcome) : Nat :=
  if sendResults.isEmpty then 0
  else (sendResults.filter (fun r => r == SendOutcome.ok true)).length

end Notify

-- ======================== utils.py ========================

namespace Utils

/-- One entry of the new_results list handed to
format_notification_message (ip, port, service dictionary). -/
structure NotifEntry where
  ip : String
  port : Nat
  service : String
deriving DecidableEq, Repr

/-- The bullet line appended for one of the first ten new results. -/
def bulletLine (r : NotifEntry) : String :=
  "\n• " ++ r.ip ++ ":" ++ toString r.port ++ " - " ++ r.service

/-- The overflow line appended when more than ten results are new. -/
def moreLine (omitted : Nat) : String :=
  "\n• ... и ещё " ++ toString omitted

/-- The f-string header of the notification message (its leading newline
included). `timestamp` is the formatted current time, `duration` the
summary duration text, `total_ports` the summary total. -/
def notificationHeader (count : Nat) (timestamp duration : String)
    (total_ports : Nat) : String :=
  "\n🔍 *Результаты сканирования портов*\n\n⏰ Время: " ++ timestamp ++
    "\n📊 Найдено новых: " ++ toString count ++
    "\n⏱️ Длительность: " ++ duration ++
    "с\n📈 Всего найдено портов: " ++ toString total_ports ++
    "\n\n*Новые открытые порты:*\n"

/-- The closing line of the notification message. -/
def messageFooter : String := "\n\n✅ Сканирование завершено успешно"

/-- utils.format_notification_message: header, then one bullet per entry
of new_results limited to the first ten, then the overflow line when more
than ten entries exist, then the footer; the whole text is stripped. -/
def format_notification_message (new_results : List NotifEntry)
    (timestamp duration : String) (total_ports : Nat) : String :=
  let message0 := notificationHeader new_results.length timestamp duration total_ports
  let withEntries := (new_results.take 10).foldl (fun m r => m ++ bulletLine r) message0
  let withMore := if 10 < new_results.length
    then withEntries ++ moreLine (new_results.length - 10)
    else withEntries
  BannerAnalyzer.pyStrip (withMore ++ messageFooter)

/-- Spec-side view of the bullet section: the lines rendered for the first
ten entries. -/
def notificationBullets (new_results : List NotifEntry) : List String :=
  (new_results.take 10).map bulletLine

/-- Spec-side view of the overflow section. -/
def omissionLines (new_results : List NotifEntry) : List String :=
  if 10 < new_results.length then [moreLine (new_results.length - 10)] else []

end Utils

-- ======================== main.py ========================

namespace PortScannerApplication

/-- The segment of PortScannerApplication.run_scan that follows the first
save of a completed session: the new-results list is recomputed from the
in-memory is_new flags, the session counters are refreshed, and the
notification fan-out is entered only when that list is nonempty. The
returned Bool records whether notifier.notify_all is invoked. -/
def run_scan_after_save (session : ScanSession) : ScanSession × Bool :=
  let newResults := session.results.filter (fun r => r.is_new)
  ({ session with new_results := newResults.length,
                  total_results := session.results.length },
   !newResults.isEmpty)

end PortScannerApplication

-- ======================== shared helper lemmas ========================

lemma mem_distinctFirst {α : Type} [DecidableEq α] (l : List α) (a : α) :
    a ∈ distinctFirst l ↔ a ∈ l := by
  induction l with
  | nil => simp [distinctFirst]
  | cons p ps ih =>
    simp only [distinctFirst, List.mem_cons, List.mem_filter]
    constructor
    · rintro (rfl | ⟨hmem, _⟩)
      · exact Or.inl rfl
      · exact Or.inr (ih.mp hmem)
    · rintro (rfl | hmem)
      · exact Or.inl rfl
      · by_cases hap : a = p
        · exact Or.inl hap
        · exact Or.inr ⟨ih.mpr hmem, by simpa using hap⟩

lemma nodup_distinctFirst {α : Type} [DecidableEq α] (l : List α) :
    (distinctFirst l).Nodup := by
  induction l with
  | nil => simp [distinctFirst]
  | cons p ps ih =>
    refine List.Nodup.cons ?_ (ih.filter _)
    intro hmem
    have := (List.mem_filter.mp hmem).2
    simp at this

lemma length_distinctFirst_eq_card {α : Type} [DecidableEq α] (l : List α) :
    (distinctFirst l).length = l.toFinset.card := by
  have hset : (distinctFirst l).toFinset = l.toFinset := by
    ext a
    simp [List.mem_toFinset, mem_distinctFirst]
  calc (distinctFirst l).length
      = (distinctFirst l).toFinset.card :=
        (List.toFinset_card_of_nodup (nodup_distinctFirst l)).symm
    _ = l.toFinset.card := by rw [hset]

lemma insertByCountDesc_perm (x : Nat × Nat) (l : List (Nat × Nat)) :
    List.Perm (insertByCountDesc x l) (x :: l) := by
  induction l with
  | nil => simp [insertByCountDesc]
  | cons y ys ih =>
    by_cases h : x.2 ≤ y.2
    · simpa [insertByCountDesc, h] using
        (List.Perm.trans (List.Perm.cons y ih) (List.Perm.swap x y ys))
    · simp [insertByCountDesc, h]

lemma mem_insertByCountDesc (x a : Nat × Nat) (l : List (Nat × Nat)) :
    a ∈ insertByCountDesc x l ↔ a = x ∨ a ∈ l := by
  have h := @List.Perm.mem_iff _ a _ _ (insertByCountDesc_perm x l)
  simpa using h

lemma pairwise_insertByCountDesc (x : Nat × Nat) (l : List (Nat × Nat))
    (h : l.Pairwise (fun a b => b.2 ≤ a.2)) :
    (insertByCountDesc x l).Pairwise (fun a b => b.2 ≤ a.2) := by
  induction l with
  | nil => simp [insertByCountDesc]
  | cons y ys ih =>
    rcases List.pairwise_cons.mp h with ⟨hy, hys⟩
    by_cases hle : x.2 ≤ y.2
    · simp only [insertByCountDesc, hle, if_pos]
      refine List.pairwise_cons.mpr ⟨?_, ih hys⟩
      intro a ha
      rcases (mem_insertByCountDesc x a ys).mp ha with rfl | hmem
      · exact hle
      · exact hy a hmem
    · simp only [insertByCountDesc, hle, if_neg, not_false_iff]
      refine List.pairwise_cons.mpr ⟨?_, h⟩
      intro a ha
      rcases List.mem_cons.mp ha with rfl | hmem
      · exact Nat.le_of_not_le hle
      · exact le_trans (hy a hmem) (Nat.le_of_not_le hle)

lemma sortByCountDesc_foldl_perm (l acc : List (Nat × Nat)) :
    List.Perm (l.foldl (fun a x => insertByCountDesc x a) acc) (acc ++ l) := by
  induction l generalizing acc with
  | nil => simp
  | cons x xs ih =>
    have h1 : List.Perm ((x :: xs).foldl (fun a y => insertByCountDesc y a) acc)
        (insertByCountDesc x acc ++ xs) := by
      simpa using ih (insertByCountDesc x acc)
    have h2 : List.Perm (insertByCountDesc x acc ++ xs) ((x :: acc) ++ xs) :=
      (insertByCountDesc_perm x acc).append_right xs
    have h3 : List.Perm ((x :: acc) ++ xs) (acc ++ x :: xs) := by
      simpa using (@List.perm_middle _ x acc xs).symm
    exact h1.trans (h2.trans h3)

lemma sortByCountDesc_perm (l : List (Nat × Nat)) :
    List.Perm (sortByCountDesc l) l := by
  simpa [sortByCountDesc] using sortByCountDesc_foldl_perm l []

lemma sortByCountDesc_foldl_pairwise (l acc : List (Nat × Nat))
    (h : acc.Pairwise (fun a b => b.2 ≤ a.2)) :
    (l.foldl (fun a x => insertByCountDesc x a) acc).Pairwise (fun a b => b.2 ≤ a.2) := by
  induction l generalizing acc with
  | nil => exact h
  | cons x xs ih =>
    exact ih (insertByCountDesc x acc) (pairwise_insertByCountDesc x acc h)

lemma sortByCountDesc_pairwise (l : List (Nat × Nat)) :
    (sortByCountDesc l).Pairwise (fun a b => b.2 ≤ a.2) := by
  simpa [sortByCountDesc] using sortByCountDesc_foldl_pairwise l [] (by simp)

lemma popularPorts_length_le (ports : List Nat) : (popularPorts ports).length ≤ 10 := by
  simp only [popularPorts]
  exact le_trans (le_of_eq (List.length_take 10 _)) (Nat.min_le_left _ _)

lemma popularPorts_pairwise (ports : List Nat) :
    (popularPorts ports).Pairwise (fun a b => b.2 ≤ a.2) := by
  exact (sortByCountDesc_pairwise _).sublist (List.take_sublist 10 _)

lemma popularPorts_count (ports : List Nat) (pc : Nat × Nat)
    (h : pc ∈ popularPorts ports) : pc.2 = ports.count pc.1 ∧ pc.1 ∈ ports := by
  have h1 : pc ∈ sortByCountDesc ((distinctFirst ports).map
      (fun p => (p, ports.count p))) := List.take_subset 10 _ h
  have h2 : pc ∈ (distinctFirst ports).map (fun p => (p, ports.count p)) :=
    (sortByCountDesc_perm _).mem_iff.mp h1
  rcases List.mem_map.mp h2 with ⟨p, hp, hpc⟩
  constructor
  · rw [← hpc]
  · rw [← hpc]
    exact (mem_distinctFirst ports p).mp hp

/-- Fallback values used with List.getD in elementwise statements. -/
def dummyResult : ScanResult := { ip := "", port := 0 }

/-- Fallback pattern-table entry (matches nothing). -/
def emptyPatEntry : BannerAnalyzer.PatEntry := ⟨fun _ => none, "", ""⟩

/-- Fallback notification entry. -/
def dummyNotifEntry : Utils.NotifEntry := { ip := "", port := 0, service := "" }

lemma searchPat_none_matcher (s : List Char) :
    BannerAnalyzer.searchPat (fun _ => none) s = none := by
  induction s with
  | nil => rfl
  | cons c cs ih => simpa [BannerAnalyzer.searchPat] using ih

lemma firstPatternResult_of_first_match (es : List BannerAnalyzer.PatEntry)
    (s : List Char) (i : Nat)
    (hnone : ∀ j, j < i → BannerAnalyzer.tryEntry (es.getD j emptyPatEntry) s = none)
    (hsome : BannerAnalyzer.tryEntry (es.getD i emptyPatEntry) s ≠ none) :
    BannerAnalyzer.firstPatternResult es s
      = BannerAnalyzer.tryEntry (es.getD i emptyPatEntry) s := by
  induction es generalizing i with
  | nil =>
    exfalso
    have hd : (([] : List BannerAnalyzer.PatEntry).getD i emptyPatEntry) = emptyPatEntry := by
      cases i <;> rfl
    rw [hd] at hsome
    exact hsome (by simp [emptyPatEntry, BannerAnalyzer.tryEntry, searchPat_none_matcher])
  | cons e es ih =>
    cases i with
    | zero =>
      simp only [List.getD_cons_zero] at hsome ⊢
      cases h : BannerAnalyzer.tryEntry e s with
      | some r => simp [BannerAnalyzer.firstPatternResult, h]
      | none => exact absurd h hsome
    | succ i =>
      have h0 : BannerAnalyzer.tryEntry e s = none := by
        simpa using hnone 0 (Nat.succ_pos i)
      simp only [List.getD_cons_succ] at hsome ⊢
      have hsh : ∀ j, j < i → BannerAnalyzer.tryEntry (es.getD j emptyPatEntry) s = none := by
        intro j hj
        simpa using hnone (j + 1) (Nat.succ_lt_succ hj)
      simp only [BannerAnalyzer.firstPatternResult, h0]
      exact ih i hsh hsome

lemma get_banner_for_port_fields (o : MasscanScanner.ProbeOutcome) (r : ScanResult) :
    (MasscanScanner.get_banner_for_port o r).ip = r.ip ∧
    (MasscanScanner.get_banner_for_port o r).port = r.port ∧
    (MasscanScanner.get_banner_for_port o r).is_new = r.is_new ∧
    (MasscanScanner.get_banner_for_port o r).timestamp = r.timestamp ∧
    (MasscanScanner.get_banner_for_port o r).scan_id = r.scan_id := by
  cases o <;> simp [MasscanScanner.get_banner_for_port]

lemma get_banner_for_port_of_failure (o : MasscanScanner.ProbeOutcome) (r : ScanResult)
    (h : ∀ raw cf, o ≠ MasscanScanner.ProbeOutcome.success raw cf) :
    MasscanScanner.get_banner_for_port o r = r := by
  cases o with
  | success raw cf => exact absurd rfl (h raw cf)
  | _ => rfl

lemma get_banners_async_length (outcomes : List MasscanScanner.ProbeOutcome)
    (results : List ScanResult) (h : outcomes.length = results.length) :
    (MasscanScanner.get_banners_async outcomes results).length = results.length := by
  simp [MasscanScanner.get_banners_async, List.length_zip, h]

lemma get_banners_async_getD (outcomes : List MasscanScanner.ProbeOutcome)
    (results : List ScanResult) (h : outcomes.length = results.length)
    (i : Nat) (hi : i < results.length) :
    (MasscanScanner.get_banners_async outcomes results).getD i dummyResult
      = MasscanScanner.get_banner_for_port
          (outcomes.getD i MasscanScanner.ProbeOutcome.connectTimeout)
          (results.getD i dummyResult) := by
  induction results generalizing outcomes i with
  | nil => simp at hi
  | cons r rs ih =>
    cases outcomes with
    | nil => simp at h
    | cons o os =>
      cases i with
      | zero => simp [MasscanScanner.get_banners_async]
      | succ i =>
        have h2 : os.length = rs.length := by simpa using h
        have hi2 : i < rs.length := by simpa using hi
        simpa [MasscanScanner.get_banners_async] using ih os h2 i hi2

lemma notify_all_eq_countP (l : List Notify.SendOutcome) :
    Notify.notify_all l = l.countP (fun r => r == Notify.SendOutcome.ok true) := by
  cases l with
  | nil => rfl
  | cons x xs => simp [Notify.notify_all, List.countP_eq_length_filter]

/-- Concatenation of a list of strings. -/
def joinAll : List String → String
  | [] => ""
  | y :: ys => y ++ joinAll ys

lemma foldl_string_append (ys : List String) (a : String) :
    ys.foldl (fun x y => x ++ y) a = a ++ joinAll ys := by
  induction ys generalizing a with
  | nil => simp [joinAll, String.append_empty]
  | cons y ys ih =>
    rw [List.foldl_cons, ih (a ++ y)]
    show a ++ y ++ joinAll ys = a ++ joinAll (y :: ys)
    rw [String.append_assoc]
    rfl

lemma joinAll_singleton (y : String) : joinAll [y] = y := by
  show y ++ "" = y
  rw [String.append_empty]

-- ======================== concrete fixtures ========================

/-- Empty SQLite store. -/
def emptySQLiteDB : SQLiteDB := {}

/-- Empty JSON store. -/
def emptyJSONData : JSONData := {}

/-- A session whose single result repeats the already-stored pair
(10.0.0.1, 22). -/
def fixtureSession1 : ScanSession :=
  { id := "s1", status := ScanStatus.completed, start_time := 5,
    end_time := some 9, targets := ["10.0.0.0/24"],
    results := [{ ip := "10.0.0.1", port := 22, service := some "SSH",
                  timestamp := 7 }] }

/-- A JSON store that already holds a row for (10.0.0.1, 22). -/
def fixtureJData : JSONData :=
  { sessions := [],
    results := [{ ip := "10.0.0.1", port := 22, service := some "SSH",
                  banner := none, is_new := true, timestamp := 1,
                  scan_id := "s0" }] }

/-- An SQLite store that already holds a row for (10.0.0.1, 22). -/
def fixtureDB : SQLiteDB :=
  { scan_sessions := [],
    scan_results := [{ id := "r0", scan_id := "s0", ip := "10.0.0.1",
                       port := 22, service := some "SSH", banner := none,
                       is_new := true, timestamp := 1 }] }

/-- The spec scenario session: results (10.0.0.1, 22) and (10.0.0.1, 80). -/
def scenarioSession : ScanSession :=
  { id := "sA", status := ScanStatus.completed, start_time := 0,
    end_time := some 3, targets := ["10.0.0.1"],
    results := [{ ip := "10.0.0.1", port := 22, service := some "OpenSSH",
                  timestamp := 1 },
                { ip := "10.0.0.1", port := 80, service := some "Apache",
                  timestamp := 2 }] }

/-- A JSON store holding one failed session and no results. -/
def fixtureFailedJData : JSONData :=
  { sessions := [{ id := "sF", status := "failed", start_time := 0,
                   end_time := some 1, targets := [], total_results := 0,
                   new_results := 0 }],
    results := [] }

/-- A completed session none of whose results is new. -/
def fixtureOldSession : ScanSession :=
  { id := "s2", status := ScanStatus.completed,
    results := [{ ip := "10.0.0.1", port := 22, is_new := false }] }

/-- Twelve identical new-result entries for the overflow scenario. -/
def c10Entries : List Utils.NotifEntry :=
  List.replicate 12 { ip := "10.0.0.1", port := 80, service := "HTTP" }

-- ======================== claim theorems ========================

/-- Claim C1 (code_bug evidence): saving a session whose result repeats the
already-stored pair (10.0.0.1, 22) keeps the store at one row for the pair
in both backends, but only the SQLite backend forces the in-memory
result's is-new flag to false — the JSON backend skips the duplicate
insert and leaves the flag true, so a second save does NOT always yield
is_new == false on the in-memory result object. -/
theorem C1_json_duplicate_save_keeps_is_new :
    ((JSONStorage.save_scan_session fixtureJData fixtureSession1).2.1.results.map
        (fun r => r.is_new)) = [true] ∧
    (JSONStorage.save_scan_session fixtureJData fixtureSession1).1.results.length = 1 ∧
    ((SQLiteStorage.save_scan_session fixtureDB fixtureSession1).2.1.results.map
        (fun r => r.is_new)) = [false] ∧
    (SQLiteStorage.save_scan_session fixtureDB fixtureSession1).1.scan_results.length = 1 := by
  decide

/-- Claim C2 (counterexample): when the storage layer fails, both backends
report the result as NEW (true), not as not-new (false) as the claim
states. -/
theorem C2_counterexample_error_treated_as_new :
    SQLiteStorage.check_is_new_result (Except.error ())
        { ip := "10.0.0.1", port := 22 } = true ∧
    JSONStorage.check_is_new_result (Except.error ())
        { ip := "10.0.0.1", port := 22 } = true := by
  exact ⟨rfl, rfl⟩

/-- Claim C2 (amended): on a storage-layer error, check_is_new_result of
either backend returns true — the error is converted into a "new"
determination for every result. -/
theorem C2_check_is_new_result_error_default (r : ScanResult) :
    SQLiteStorage.check_is_new_result (Except.error ()) r = true ∧
    JSONStorage.check_is_new_result (Except.error ()) r = true := by
  exact ⟨rfl, rfl⟩

/-- Claim C3: when the bulk scan invoker raises any error (the timeout
included), the session's status becomes failed, str of the error is
appended to the error list, the end time is stamped, the result list is
left empty, and the banner probing step is never executed. -/
theorem C3_bulk_error_fails_session_and_skips_probing
    (sess_id : String) (targets : List String) (start now : Nat) (gb : Bool)
    (e : MasscanScanner.MasscanErr)
    (probeBatch : List ScanResult → List ScanResult) :
    (MasscanScanner.scan_async sess_id targets start now gb
        (Except.error e) probeBatch).1.status = ScanStatus.failed ∧
    (MasscanScanner.scan_async sess_id targets start now gb
        (Except.error e) probeBatch).1.errors = [e.message] ∧
    (MasscanScanner.scan_async sess_id targets start now gb
        (Except.error e) probeBatch).1.end_time = some now ∧
    (MasscanScanner.scan_async sess_id targets start now gb
        (Except.error e) probeBatch).1.results = [] ∧
    (MasscanScanner.scan_async sess_id targets start now gb
        (Except.error e) probeBatch).2 = false := by
  exact ⟨rfl, rfl, rfl, rfl, rfl⟩

/-- Claim C5 (amended): when the external process exceeds the wall-clock
timeout, _run_masscan fails with the Timeout error and returns no partial
results, and the finally block removes the temporary output file; the
source issues no kill, so the process-termination effect is false. -/
theorem C5_timeout_no_partial_results (parsed : List ScanResult) :
    MasscanScanner.run_masscan MasscanScanner.ProcOutcome.timesOut parsed
      = (Except.error MasscanScanner.MasscanErr.timesOut,
         { killedProcess := false, removedTempFile := true }) := rfl

/-- Claim C5 (counterexample): on the timeout path the call does fail with
Timeout, but the external process is NOT forcibly terminated — the
termination effect the claim asserts is false. -/
theorem C5_counterexample_process_not_killed :
    (MasscanScanner.run_masscan MasscanScanner.ProcOutcome.timesOut []).1
        = Except.error MasscanScanner.MasscanErr.timesOut ∧
    ¬ (MasscanScanner.run_masscan MasscanScanner.ProcOutcome.timesOut
        []).2.killedProcess = true := by
  exact ⟨rfl, by decide⟩

/-- Claim C4: banner probing never drops a result — the output batch has
one entry per input entry, positionally; every probe leaves the identity
fields of its result untouched, and every failing probe (anything except a
completed read) returns the result exactly as it was, its banner and
service as originally assigned. -/
theorem C4_probing_preserves_every_result
    (outcomes : List MasscanScanner.ProbeOutcome) (results : List ScanResult)
    (hlen : outcomes.length = results.length) :
    (MasscanScanner.get_banners_async outcomes results).length = results.length ∧
    (∀ i, i < results.length →
      ((MasscanScanner.get_banners_async outcomes results).getD i dummyResult).ip
          = (results.getD i dummyResult).ip ∧
      ((MasscanScanner.get_banners_async outcomes results).getD i dummyResult).port
          = (results.getD i dummyResult).port ∧
      ((MasscanScanner.get_banners_async outcomes results).getD i dummyResult).is_new
          = (results.getD i dummyResult).is_new ∧
      ((MasscanScanner.get_banners_async outcomes results).getD i dummyResult).timestamp
          = (results.getD i dummyResult).timestamp ∧
      ((MasscanScanner.get_banners_async outcomes results).getD i dummyResult).scan_id
          = (results.getD i dummyResult).scan_id ∧
      ((∀ raw cf, outcomes.getD i MasscanScanner.ProbeOutcome.connectTimeout
            ≠ MasscanScanner.ProbeOutcome.success raw cf) →
        (MasscanScanner.get_banners_async outcomes results).getD i dummyResult
          = results.getD i dummyResult)) := by
  refine ⟨get_banners_async_length outcomes results hlen, ?_⟩
  intro i hi
  rw [get_banners_async_getD outcomes results hlen i hi]
  obtain ⟨h1, h2, h3, h4, h5⟩ := get_banner_for_port_fields
    (outcomes.getD i MasscanScanner.ProbeOutcome.connectTimeout)
    (results.getD i dummyResult)
  exact ⟨h1, h2, h3, h4, h5, fun h => get_banner_for_port_of_failure _ _ h⟩

/-- Claim C4 (witness): a single read-timeout probe keeps the batch at one
entry and returns the result verbatim. -/
theorem C4_witness :
    (MasscanScanner.get_banners_async [MasscanScanner.ProbeOutcome.readTimeout]
        [{ ip := "10.0.0.1", port := 22, service := some "SSH" }]).length = 1 ∧
    (MasscanScanner.get_banners_async [MasscanScanner.ProbeOutcome.readTimeout]
        [{ ip := "10.0.0.1", port := 22, service := some "SSH" }]).getD 0 dummyResult
      = { ip := "10.0.0.1", port := 22, service := some "SSH" } := by
  have h := C4_probing_preserves_every_result
    [MasscanScanner.ProbeOutcome.readTimeout]
    [{ ip := "10.0.0.1", port := 22, service := some "SSH" }] (by decide)
  refine ⟨h.1, ?_⟩
  have h2 := (h.2 0 (by decide)).2.2.2.2.2
    (fun raw cf hh => MasscanScanner.ProbeOutcome.noConfusion hh)
  exact h2

/-- Claim C6 (amended): for both backends total_results is the number of
stored result rows and unique_hosts the number of distinct host addresses;
the popular-ports table carries at most ten entries, descending by
frequency, each entry paired with the exact row count of its port. The
SQLite backend counts only sessions whose status is completed, while the
JSON backend counts ALL stored sessions. On the spec scenario (empty
store; save a session with results (10.0.0.1, 22) and (10.0.0.1, 80))
both backends report total_results = 2 and unique_hosts = 1. -/
theorem C6_statistics_characterized :
    (∀ db : SQLiteDB,
      (SQLiteStorage.get_statistics db).total_results = db.scan_results.length ∧
      (SQLiteStorage.get_statistics db).unique_hosts
          = (db.scan_results.map (fun r => r.ip)).toFinset.card ∧
      (SQLiteStorage.get_statistics db).total_scans
          = (db.scan_sessions.filter (fun s => s.status == "completed")).length) ∧
    (∀ data : JSONData,
      (JSONStorage.get_statistics data).total_results = data.results.length ∧
      (JSONStorage.get_statistics data).unique_hosts
          = (data.results.map (fun r => r.ip)).toFinset.card ∧
      (JSONStorage.get_statistics data).total_scans = data.sessions.length) ∧
    (∀ ports : List Nat,
      (popularPorts ports).length ≤ 10 ∧
      (popularPorts ports).Pairwise (fun a b => b.2 ≤ a.2) ∧
      (∀ pc, pc ∈ popularPorts ports → pc.2 = ports.count pc.1 ∧ pc.1 ∈ ports)) ∧
    ((SQLiteStorage.get_statistics
        (SQLiteStorage.save_scan_session emptySQLiteDB scenarioSession).1).total_results = 2 ∧
     (SQLiteStorage.get_statistics
        (SQLiteStorage.save_scan_session emptySQLiteDB scenarioSession).1).unique_hosts = 1 ∧
     (JSONStorage.get_statistics
        (JSONStorage.save_scan_session emptyJSONData scenarioSession).1).total_results = 2 ∧
     (JSONStorage.get_statistics
        (JSONStorage.save_scan_session emptyJSONData scenarioSession).1).unique_hosts = 1) := by
  refine ⟨?_, ?_, ?_, by decide, by decide, by decide, by decide⟩
  · intro db
    exact ⟨rfl, length_distinctFirst_eq_card _, rfl⟩
  · intro data
    exact ⟨rfl, length_distinctFirst_eq_card _, rfl⟩
  · intro ports
    exact ⟨popularPorts_length_le ports, popularPorts_pairwise ports,
           fun pc h => popularPorts_count ports pc h⟩

/-- Claim C6 (witness): instantiating the frequency-table conjunct at the
concrete store contents [22, 80, 22]. -/
theorem C6_witness :
    ((22 : Nat), (2 : Nat)).2 = [22, 80, 22].count 22 ∧ (22 : Nat) ∈ [22, 80, 22] :=
  (C6_statistics_characterized.2.2.1 [22, 80, 22]).2.2 (22, 2) (by decide)

/-- Claim C6 (counterexample): a JSON store holding exactly one FAILED
session reports total_scans = 1 although it holds no completed session, so
statistics do not count only completed sessions on both backends. -/
theorem C6_counterexample_json_counts_failed_sessions :
    (JSONStorage.get_statistics fixtureFailedJData).total_scans = 1 ∧
    (fixtureFailedJData.sessions.filter (fun s => s.status == "completed")).length = 0 := by
  decide

/-- Claim C7: notify_all returns exactly the number of senders whose send
returned True; outcomes combine additively so no channel's failure or
exception affects the others or the call; add_notifier excludes a
disabled notifier (a Telegram sender with an empty token in particular)
and appends an enabled one; with one thrown exception and one success the
returned count is 1. -/
theorem C7_notify_all_counts_successes :
    (∀ l : List Notify.SendOutcome,
        Notify.notify_all l = l.countP (fun r => r == Notify.SendOutcome.ok true)) ∧
    (∀ a b : List Notify.SendOutcome,
        Notify.notify_all (a ++ b) = Notify.notify_all a + Notify.notify_all b) ∧
    (∀ (ns : List Notify.Notifier) (n : Notify.Notifier),
        n.enabled = false → Notify.add_notifier ns n = ns) ∧
    (∀ (ns : List Notify.Notifier) (n : Notify.Notifier),
        n.enabled = true → Notify.add_notifier ns n = ns ++ [n]) ∧
    (∀ (ns : List Notify.Notifier) (chat_id : String),
        Notify.add_notifier ns { enabled := Notify.telegramEnabled "" chat_id } = ns) ∧
    Notify.notify_all [Notify.SendOutcome.exn, Notify.SendOutcome.ok true] = 1 := by
  refine ⟨notify_all_eq_countP, ?_, ?_, ?_, ?_, by decide⟩
  · intro a b
    rw [notify_all_eq_countP, notify_all_eq_countP, notify_all_eq_countP,
        List.countP_append]
  · intro ns n h
    simp [Notify.add_notifier, h]
  · intro ns n h
    simp [Notify.add_notifier, h]
  · intro ns chat_id
    simp [Notify.add_notifier, Notify.telegramEnabled]

/-- Claim C7 (witness): a disabled notifier is not added, and the
two-sender scenario (one throws, one succeeds) returns 1. -/
theorem C7_witness :
    Notify.add_notifier [] { enabled := false } = ([] : List Notify.Notifier) ∧
    Notify.notify_all [Notify.SendOutcome.exn, Notify.SendOutcome.ok true] = 1 :=
  ⟨C7_notify_all_counts_successes.2.2.1 [] { enabled := false } rfl,
   C7_notify_all_counts_successes.2.2.2.2.2⟩

/-- Claim C8: when the recomputed new-results count of a saved session is
zero, run_scan does not enter the notification fan-out — no channel send
is issued for that session. -/
theorem C8_zero_new_results_skip_fanout (session : ScanSession)
    (h : (PortScannerApplication.run_scan_after_save session).1.new_results = 0) :
    (PortScannerApplication.run_scan_after_save session).2 = false := by
  have hlen : (session.results.filter (fun r => r.is_new)).length = 0 := h
  have hnil := List.length_eq_zero.mp hlen
  simp [PortScannerApplication.run_scan_after_save, hnil]

/-- Claim C8 (witness): a session whose single result is not new skips the
fan-out. -/
theorem C8_witness :
    (PortScannerApplication.run_scan_after_save fixtureOldSession).2 = false :=
  C8_zero_new_results_skip_fanout fixtureOldSession (by decide)

/-- Claim C9 (amended): analyze is a pure function of the banner; the empty
banner yields Unknown; the pattern table is consulted in declaration order
and the first matching entry's rendering is the result (so a banner that
matches two patterns — here "OpenSSH SMTP", which also matches the later
SMTP pattern — yields the earlier entry's result); when no pattern
matches, the result is the first line of the banner AFTER stripping
leading and trailing whitespace, truncated to 50 characters, with Unknown
for an empty first line. -/
theorem C9_analyze_order_and_fallback :
    BannerAnalyzer.analyze "" = "Unknown" ∧
    (∀ b : String, ¬ b = "" →
      BannerAnalyzer.firstPatternResult BannerAnalyzer.PATTERNS
          (BannerAnalyzer.pyStrip b).toList = none →
      BannerAnalyzer.analyze b
        = (if (BannerAnalyzer.firstLineOf (BannerAnalyzer.pyStrip b)).isEmpty
           then "Unknown"
           else String.mk
             ((BannerAnalyzer.firstLineOf (BannerAnalyzer.pyStrip b)).take 50))) ∧
    (∀ (b : String) (i : Nat), ¬ b = "" →
      (∀ j, j < i →
        BannerAnalyzer.tryEntry (BannerAnalyzer.PATTERNS.getD j emptyPatEntry)
          (BannerAnalyzer.pyStrip b).toList = none) →
      BannerAnalyzer.tryEntry (BannerAnalyzer.PATTERNS.getD i emptyPatEntry)
          (BannerAnalyzer.pyStrip b).toList ≠ none →
      BannerAnalyzer.analyze b
        = (BannerAnalyzer.tryEntry (BannerAnalyzer.PATTERNS.getD i emptyPatEntry)
            (BannerAnalyzer.pyStrip b).toList).getD "Unknown") ∧
    (BannerAnalyzer.analyze "OpenSSH SMTP" = "OpenSSH" ∧
     BannerAnalyzer.tryEntry (BannerAnalyzer.PATTERNS.getD 13 emptyPatEntry)
        (BannerAnalyzer.pyStrip "OpenSSH SMTP").toList = some "SMTP") := by
  refine ⟨by decide, ?_, ?_, by decide, by decide⟩
  · intro b hb hnone
    unfold BannerAnalyzer.analyze
    rw [if_neg hb]
    simp only [hnone]
  · intro b i hb hnone hsome
    have hchar := firstPatternResult_of_first_match BannerAnalyzer.PATTERNS
      (BannerAnalyzer.pyStrip b).toList i hnone hsome
    obtain ⟨r, hr⟩ := Option.ne_none_iff_exists'.mp hsome
    unfold BannerAnalyzer.analyze
    rw [if_neg hb]
    simp only [hchar, hr, Option.getD_some]

/-- Claim C9 (witness): a banner with zero pattern matches falls back to
its stripped first line, and the overlapping banner resolves to the
earlier-declared pattern. -/
theorem C9_witness :
    BannerAnalyzer.analyze "  zzz" = "zzz" ∧
    BannerAnalyzer.analyze "OpenSSH SMTP" = "OpenSSH" := by
  constructor
  · have h := C9_analyze_order_and_fallback.2.1 "  zzz" (by decide) (by decide)
    rw [h]
    decide
  · exact C9_analyze_order_and_fallback.2.2.2.1

/-- Claim C9 (counterexample): on the banner consisting of a newline
followed by "hello-world", no pattern matches and analyze returns
"hello-world" — but the first line of the (raw) banner is empty, so the
result is NOT the first line of the banner truncated to 50 characters. -/
theorem C9_counterexample_fallback_uses_stripped_banner :
    BannerAnalyzer.analyze "\nhello-world" = "hello-world" ∧
    BannerAnalyzer.firstLineOf "\nhello-world" = [] ∧
    BannerAnalyzer.firstPatternResult BannerAnalyzer.PATTERNS
        (BannerAnalyzer.pyStrip "\nhello-world").toList = none ∧
    ¬ BannerAnalyzer.analyze "\nhello-world"
        = String.mk ((BannerAnalyzer.firstLineOf "\nhello-world").take 50) := by
  refine ⟨by decide, by decide, by decide, by decide⟩

lemma getD_map_take_bullet (l : List Utils.NotifEntry) (n i : Nat)
    (hi : i < min l.length n) :
    ((l.take n).map Utils.bulletLine).getD i ""
      = Utils.bulletLine (l.getD i dummyNotifEntry) := by
  induction l generalizing n i with
  | nil => simp at hi
  | cons x xs ih =>
    cases n with
    | zero => simp at hi
    | succ n =>
      cases i with
      | zero => simp
      | succ i =>
        have hi2 : i < min xs.length n := by
          rw [List.length_cons, Nat.succ_min_succ] at hi
          exact Nat.lt_of_succ_lt_succ hi
        simpa using ih n i hi2

/-- Claim C10: the rendered notification message is the stripped
concatenation of the header, one bullet line per entry of the first ten
new results (in order), the single overflow line counting the entries
beyond the tenth exactly when more than ten exist, and the footer. -/
theorem C10_message_lists_first_ten_with_overflow
    (new_results : List Utils.NotifEntry) (timestamp duration : String)
    (total_ports : Nat) :
    Utils.format_notification_message new_results timestamp duration total_ports
      = BannerAnalyzer.pyStrip
          (Utils.notificationHeader new_results.length timestamp duration total_ports
            ++ joinAll (Utils.notificationBullets new_results)
            ++ joinAll (Utils.omissionLines new_results)
            ++ Utils.messageFooter) ∧
    (Utils.notificationBullets new_results).length = min new_results.length 10 ∧
    (∀ i, i < min new_results.length 10 →
      (Utils.notificationBullets new_results).getD i ""
        = Utils.bulletLine (new_results.getD i dummyNotifEntry)) ∧
    (10 < new_results.length →
      Utils.omissionLines new_results = [Utils.moreLine (new_results.length - 10)]) ∧
    (new_results.length ≤ 10 → Utils.omissionLines new_results = []) := by
  refine ⟨?_, ?_, ?_, ?_, ?_⟩
  · simp only [Utils.format_notification_message]
    have hfold : (new_results.take 10).foldl (fun m r => m ++ Utils.bulletLine r)
          (Utils.notificationHeader new_results.length timestamp duration total_ports)
        = Utils.notificationHeader new_results.length timestamp duration total_ports
            ++ joinAll (Utils.notificationBullets new_results) := by
      rw [Utils.notificationBullets, ← foldl_string_append, List.foldl_map]
    by_cases h : 10 < new_results.length
    · rw [if_pos h, hfold]
      simp only [Utils.omissionLines, if_pos h, joinAll_singleton]
    · rw [if_neg h, hfold]
      simp only [Utils.omissionLines, if_neg h]
      show _ = BannerAnalyzer.pyStrip (_ ++ "" ++ _)
      rw [String.append_empty]
  · simp [Utils.notificationBullets, List.length_take, Nat.min_comm]
  · intro i hi
    exact getD_map_take_bullet new_results 10 i hi
  · intro h
    simp [Utils.omissionLines, h]
  · intro h
    simp [Utils.omissionLines, Nat.not_lt.mpr h]

/-- Claim C10 (witness): with twelve new results the message renders
exactly ten bullet lines and one overflow line counting the omitted two. -/
theorem C10_witness :
    (Utils.notificationBullets c10Entries).length = 10 ∧
    Utils.omissionLines c10Entries = [Utils.moreLine 2] := by
  have h := C10_message_lists_first_ten_with_overflow c10Entries "t" "1" 12
  constructor
  · rw [h.2.1]
    decide
  · have h2 := h.2.2.2.1 (by decide)
    rw [h2]
    decide
